import Mathlib

/-!
Shallow embedding of the gofp library (packages gofp, reader, state, writer).

Go structs are mirrored field for field; Go zero values are modelled by the
Inhabited default of the corresponding Lean type. The Go error interface is
modelled by the inductive GoError, whose constructor GoError.nil stands for a
nil Go error and whose wrap constructor mirrors errors produced by wrapping a
message onto an existing error. The host-runtime stack capture performed by
the callers helper is an external capability per the specification, so the
constructors that capture a diagnostic take the captured text as an explicit
parameter instead of computing it. Go panics are modelled with Except, the
error branch carrying the panic payload.
-/

namespace gofp

/-- Model of the Go error interface: nil, a base error with a message, or a
wrapped error carrying an added context message. -/
inductive GoError where
  | nil : GoError
  | mk (msg : String) : GoError
  | wrap (msg : String) (cause : GoError) : GoError
deriving DecidableEq

/-- The Go zero value of the error interface type is nil. -/
instance : Inhabited GoError := ⟨GoError.nil⟩

/-- Whether the modelled Go error is nil. -/
def GoError.isNil : GoError → Bool
  | .nil => true
  | _ => false

/-- The text produced by the Error method of the modelled Go error; wrapping
mirrors the colon-space formatting used by the Wrap combinator. -/
def GoError.Error : GoError → String
  | .nil => "<nil>"
  | .mk msg => msg
  | .wrap msg cause => msg ++ ": " ++ cause.Error

/-- Unit is a type that has only one value. -/
structure Unit where
deriving DecidableEq

/-- UnitValue is the only value of type Unit. -/
def UnitValue : Unit := {}

/-- Option is a type that represents an optional value, mirroring the Go
struct with a value field and a valid flag. -/
structure Option (T : Type) where
  value : T
  valid : Bool
deriving DecidableEq

/-- Some returns an Option with a value. -/
def Some {T : Type} (value : T) : Option T :=
  { value := value, valid := true }

/-- None returns an Option with no value; the value field holds the Go zero
value, modelled by the Inhabited default. -/
def None {T : Type} [Inhabited T] : Option T :=
  { value := default, valid := false }

/-- OptionMap applies a function to transform the value type of an Option. -/
def OptionMap {T U : Type} [Inhabited U] (o : Option T) (fn : T → U) : Option U :=
  if !o.valid then None else Some (fn o.value)

/-- OptionApply applies an Option containing a function to an Option
containing a value. -/
def OptionApply {T U : Type} [Inhabited U] (o : Option T) (fn : Option (T → U)) : Option U :=
  if !o.valid || !fn.valid then None else Some (fn.value o.value)

/-- OptionFlatMap composes two Option values by using the result of the first
to create the second. -/
def OptionFlatMap {T U : Type} [Inhabited U] (o : Option T) (fn : T → Option U) : Option U :=
  if !o.valid then None else fn o.value

/-- OptionSequence transforms a slice of Option values into a single Option of
a slice, folding from Some of the empty slice exactly as the Go loop does. -/
def OptionSequence {T : Type} (options : List (Option T)) : Option (List T) :=
  options.foldl
    (fun values o =>
      OptionFlatMap values fun vs => OptionMap o fun v => vs ++ [v])
    (Some [])

/-- OptionFold applies one of two functions to the value of the Option
depending on whether it is Some or None. -/
def OptionFold {T R : Type} (o : Option T) (none : Unit → R) (some : T → R) : R :=
  if !o.valid then none UnitValue else some o.value

/-- IsSome returns true if the Option is Some. -/
def Option.IsSome {T : Type} (o : Option T) : Bool :=
  o.valid

/-- IsNone returns true if the Option is None. -/
def Option.IsNone {T : Type} (o : Option T) : Bool :=
  !o.valid

/-- TryUnwrap returns the value of the Option and a boolean indicating whether
the Option is Some; on None it returns the zero value of T. -/
def Option.TryUnwrap {T : Type} [Inhabited T] (o : Option T) : T × Bool :=
  if !o.valid then (default, false) else (o.value, true)

/-- Unwrap returns the value of the Option or panics if the Option is None;
the panic is modelled by the Except error branch carrying the panic text. -/
def Option.Unwrap {T : Type} (o : Option T) : Except String T :=
  if !o.valid then Except.error "unwrapping None" else Except.ok o.value

/-- UnwrapOr returns the value of the Option or a default value if None. -/
def Option.UnwrapOr {T : Type} (o : Option T) (defaultValue : T) : T :=
  if !o.valid then defaultValue else o.value

/-- UnwrapOrElse returns the value of the Option or the result of the given
function if None. -/
def Option.UnwrapOrElse {T : Type} (o : Option T) (fn : Unit → T) : T :=
  if !o.valid then fn UnitValue else o.value

/-- And returns None if the receiver is None, otherwise the given Option. -/
def Option.And {T : Type} [Inhabited T] (o : Option T) (opt : Option T) : Option T :=
  if !o.valid then None else opt

/-- AndThen returns None if the receiver is None, otherwise the Option
produced by the given function. -/
def Option.AndThen {T : Type} [Inhabited T] (o : Option T) (fn : T → Option T) : Option T :=
  if !o.valid then None else fn o.value

/-- Or returns the receiver if it is Some, otherwise the given Option. -/
def Option.Or {T : Type} (o : Option T) (opt : Option T) : Option T :=
  if o.valid then o else opt

/-- OrElse returns the receiver if it is Some, otherwise the Option produced
by the given function. -/
def Option.OrElse {T : Type} (o : Option T) (fn : Unit → Option T) : Option T :=
  if o.valid then o else fn UnitValue

/-- Filter converts a Some value to None if it does not satisfy the given
predicate. -/
def Option.Filter {T : Type} [Inhabited T] (o : Option T) (fn : T → Bool) : Option T :=
  if !o.valid || !fn o.value then None else o

/-- Result represents a computation that may fail, mirroring the Go struct
with value, err, isErr and stack fields. -/
structure Result (T : Type) where
  value : T
  err : GoError
  isErr : Bool
  stack : String
deriving DecidableEq

/-- Ok returns a Result with a value; the remaining fields keep their Go zero
values. -/
def Ok {T : Type} (value : T) : Result T :=
  { value := value, err := GoError.nil, isErr := false, stack := "" }

/-- Err returns a Result with an error; the stack argument stands for the
diagnostic captured by the host runtime at this construction site. The value
field holds the Go zero value. -/
def Err {T : Type} [Inhabited T] (stack : String) (err : GoError) : Result T :=
  { value := default, err := err, isErr := true, stack := stack }

/-- FromReturn builds a Result from a value and an error, the typical Go
return pattern; a diagnostic is captured only when the error is non-nil. -/
def FromReturn {T : Type} (stack : String) (v : T) (err : GoError) : Result T :=
  { value := v
    err := err
    isErr := !err.isNil
    stack := if err.isNil then "" else stack }

/-- ResultMap applies a function to transform the value type of a Result; an
error is propagated with its err and stack fields unchanged. -/
def ResultMap {T U : Type} [Inhabited U] (r : Result T) (fn : T → U) : Result U :=
  if r.isErr then
    { value := default, err := r.err, isErr := true, stack := r.stack }
  else Ok (fn r.value)

/-- ResultApply applies a Result containing a function to a Result containing
a value, propagating the first error found, value side checked first. -/
def ResultApply {T U : Type} [Inhabited U] (r : Result T) (fn : Result (T → U)) : Result U :=
  if r.isErr then
    { value := default, err := r.err, isErr := true, stack := r.stack }
  else if fn.isErr then
    { value := default, err := fn.err, isErr := true, stack := fn.stack }
  else Ok (fn.value r.value)

/-- ResultFlatMap composes two Result computations by using the value of the
first to create the second. -/
def ResultFlatMap {T U : Type} [Inhabited U] (r : Result T) (fn : T → Result U) : Result U :=
  if r.isErr then
    { value := default, err := r.err, isErr := true, stack := r.stack }
  else fn r.value

/-- ResultSequence transforms a slice of Result values into a single Result of
a slice, folding from Ok of the empty slice exactly as the Go loop does. -/
def ResultSequence {T : Type} (results : List (Result T)) : Result (List T) :=
  results.foldl
    (fun values r =>
      ResultFlatMap values fun vs => ResultMap r fun v => vs ++ [v])
    (Ok [])

/-- ResultFold applies one of two functions to the value of the Result
depending on whether it is an Ok or an Err. -/
def ResultFold {T R : Type} (r : Result T) (errFn : GoError → R) (okFn : T → R) : R :=
  if r.isErr then errFn r.err else okFn r.value

/-- IsOk returns true if the Result is Ok. -/
def Result.IsOk {T : Type} (r : Result T) : Bool :=
  !r.isErr

/-- IsErr returns true if the Result is an Err. -/
def Result.IsErr {T : Type} (r : Result T) : Bool :=
  r.isErr

/-- TryUnwrap returns the value of the Result and a boolean indicating whether
the Result is an Ok; on an Err it returns the zero value of T. -/
def Result.TryUnwrap {T : Type} [Inhabited T] (r : Result T) : T × Bool :=
  if r.isErr then (default, false) else (r.value, true)

/-- Unwrap returns the value of the Result or panics with the error if the
Result is an Err; the panic is modelled by the Except error branch. -/
def Result.Unwrap {T : Type} (r : Result T) : Except GoError T :=
  if r.isErr then Except.error r.err else Except.ok r.value

/-- UnwrapOr returns the value of the Result or a default value on an Err. -/
def Result.UnwrapOr {T : Type} (r : Result T) (defaultValue : T) : T :=
  if r.isErr then defaultValue else r.value

/-- UnwrapOrElse returns the value of the Result or the result of the given
function on an Err. -/
def Result.UnwrapOrElse {T : Type} (r : Result T) (fn : Unit → T) : T :=
  if r.isErr then fn UnitValue else r.value

/-- UnwrapErr returns the error of the Result or panics if it is an Ok. -/
def Result.UnwrapErr {T : Type} (r : Result T) : Except String GoError :=
  if !r.isErr then Except.error "unwrapping Ok" else Except.ok r.err

/-- And returns the receiver if it is an Err, otherwise the given Result. -/
def Result.And {T : Type} (r : Result T) (res : Result T) : Result T :=
  if r.isErr then r else res

/-- AndThen returns the receiver if it is an Err, otherwise the Result
produced by the given function. -/
def Result.AndThen {T : Type} (r : Result T) (fn : T → Result T) : Result T :=
  if r.isErr then r else fn r.value

/-- Or returns the receiver if it is an Ok, otherwise the given Result. -/
def Result.Or {T : Type} (r : Result T) (res : Result T) : Result T :=
  if !r.isErr then r else res

/-- OrElse returns the receiver if it is an Ok, otherwise the Result produced
by the given function applied to the error. -/
def Result.OrElse {T : Type} (r : Result T) (fn : GoError → Result T) : Result T :=
  if !r.isErr then r else fn r.err

/-- Ensure converts a value to an Err if it does not satisfy the given
predicate; the stack argument is the diagnostic captured at this new failure
site. -/
def Result.Ensure {T : Type} [Inhabited T] (r : Result T) (stack : String)
    (err : GoError) (pred : T → Bool) : Result T :=
  if r.isErr then r
  else if !pred r.value then Err stack err
  else r

/-- EnsureWith converts a value to an Err produced by the given function if it
does not satisfy the given predicate; the stack argument is the diagnostic
captured at this new failure site. -/
def Result.EnsureWith {T : Type} [Inhabited T] (r : Result T) (stack : String)
    (pred : T → Bool) (errFn : T → GoError) : Result T :=
  if r.isErr then r
  else if !pred r.value then Err stack (errFn r.value)
  else r

/-- Wrap adds additional context to the error if the Result is an Err,
preserving the stack trace; the value field keeps the Go zero value as in the
source struct literal. -/
def Result.Wrap {T : Type} [Inhabited T] (r : Result T) (msg : String) : Result T :=
  if !r.isErr then r
  else
    { value := default
      err := GoError.wrap msg r.err
      isErr := true
      stack := r.stack }

/-- ToReturn converts the Result back to the Go value and error pattern. -/
def Result.ToReturn {T : Type} (r : Result T) : T × GoError :=
  (r.value, r.err)

/-- Recover converts an error into a value using the given function if the
Result is an Err. -/
def Result.Recover {T : Type} (r : Result T) (fn : GoError → T) : Result T :=
  if r.isErr then Ok (fn r.err) else r

/-- RecoverWith converts an error into a Result using the given function if
the Result is an Err. -/
def Result.RecoverWith {T : Type} (r : Result T) (fn : GoError → Result T) : Result T :=
  if r.isErr then fn r.err else r

/-- StackTrace returns the stack trace of the Result if it is an Err. -/
def Result.StackTrace {T : Type} (r : Result T) : String :=
  if r.isErr then r.stack else ""

/-- Either represents a value of one of two possible types, mirroring the Go
struct with left, right and isLeft fields. -/
structure Either (T U : Type) where
  left : T
  right : U
  isLeft : Bool
deriving DecidableEq

/-- Left returns an Either with a left value; the right field holds the Go
zero value. -/
def Left {T U : Type} [Inhabited U] (value : T) : Either T U :=
  { left := value, right := default, isLeft := true }

/-- Right returns an Either with a right value; the left field holds the Go
zero value. -/
def Right {T U : Type} [Inhabited T] (value : U) : Either T U :=
  { left := default, right := value, isLeft := false }

/-- FromResult returns an Either from a Result; Err maps to Left of its error
and Ok maps to Right of its value, the diagnostic is discarded. -/
def FromResult {T : Type} [Inhabited T] (r : Result T) : Either GoError T :=
  if r.IsErr then Left r.err else Right r.value

/-- EitherMap applies a function to transform the right type of an Either, or
otherwise preserves the left value. -/
def EitherMap {T U V : Type} [Inhabited T] [Inhabited V] (e : Either T U)
    (fn : U → V) : Either T V :=
  if e.isLeft then Left e.left else Right (fn e.right)

/-- EitherMapLeft applies a function to transform the left type of an Either,
or otherwise preserves the right value. -/
def EitherMapLeft {T U V : Type} [Inhabited U] [Inhabited V] (e : Either T U)
    (fn : T → V) : Either V U :=
  if e.isLeft then Left (fn e.left) else Right e.right

/-- EitherApply applies an Either containing a function to an Either
containing a value, reporting the function-side Left first. -/
def EitherApply {T U V : Type} [Inhabited T] [Inhabited V] (e : Either T U)
    (efn : Either T (U → V)) : Either T V :=
  if efn.isLeft then Left efn.left
  else if e.isLeft then Left e.left
  else Right (efn.right e.right)

/-- EitherApplyMap applies an Either containing a function to an Either
containing a value, combining the left values with the given function when
both are Left; the function-side left is the first argument to combine. -/
def EitherApplyMap {T U V : Type} [Inhabited T] [Inhabited V] (e : Either T U)
    (efn : Either T (U → V)) (combine : T → T → T) : Either T V :=
  if efn.isLeft && e.isLeft then Left (combine efn.left e.left)
  else if efn.isLeft then Left efn.left
  else if e.isLeft then Left e.left
  else Right (efn.right e.right)

/-- EitherFlatMap composes two Either values by using the right value of the
first to create the second, or otherwise preserves the left value. -/
def EitherFlatMap {T U V : Type} [Inhabited V] (e : Either T U)
    (fn : U → Either T V) : Either T V :=
  if e.isLeft then Left e.left else fn e.right

/-- EitherFlatMapLeft composes two Either values by using the left value of
the first to create the second, or otherwise preserves the right value. -/
def EitherFlatMapLeft {T U V : Type} [Inhabited V] (e : Either T U)
    (fn : T → Either V U) : Either V U :=
  if e.isLeft then fn e.left else Right e.right

/-- EitherSequence transforms a slice of Either values into a single Either of
a slice, folding from Right of the empty slice exactly as the Go loop does. -/
def EitherSequence {T U : Type} [Inhabited T] (eithers : List (Either T U)) :
    Either T (List U) :=
  eithers.foldl
    (fun values e =>
      EitherFlatMap values fun vs => EitherMap e fun v => vs ++ [v])
    (Right [])

/-- EitherFold applies one of the two functions to the value of the Either
depending on whether it is Left or Right. -/
def EitherFold {T U R : Type} (e : Either T U) (left : T → R) (right : U → R) : R :=
  if e.isLeft then left e.left else right e.right

/-- IsLeft returns true if the Either is Left. -/
def Either.IsLeft {T U : Type} (e : Either T U) : Bool :=
  e.isLeft

/-- IsRight returns true if the Either is Right. -/
def Either.IsRight {T U : Type} (e : Either T U) : Bool :=
  !e.isLeft

/-- TryUnwrap returns the right value of the Either and a boolean indicating
whether it is Right; on a Left it returns the zero value of U. -/
def Either.TryUnwrap {T U : Type} [Inhabited U] (e : Either T U) : U × Bool :=
  if e.isLeft then (default, false) else (e.right, true)

/-- UnwrapOr returns the right value of the Either or a default value if the
Either is Left. -/
def Either.UnwrapOr {T U : Type} (e : Either T U) (defaultValue : U) : U :=
  if e.isLeft then defaultValue else e.right

/-- UnwrapOrElse returns the right value of the Either or the result of the
given function if the Either is Left. -/
def Either.UnwrapOrElse {T U : Type} (e : Either T U) (fn : Unit → U) : U :=
  if e.isLeft then fn UnitValue else e.right

/-- TryUnwrapLeft returns the left value of the Either and a boolean
indicating whether it is Left; on a Right it returns the zero value of T. -/
def Either.TryUnwrapLeft {T U : Type} [Inhabited T] (e : Either T U) : T × Bool :=
  if !e.isLeft then (default, false) else (e.left, true)

/-- UnwrapLeftOr returns the left value of the Either or a default value if
the Either is Right. -/
def Either.UnwrapLeftOr {T U : Type} (e : Either T U) (defaultValue : T) : T :=
  if e.isLeft then e.left else defaultValue

/-- UnwrapLeftOrElse returns the left value of the Either or the result of the
given function if the Either is Right. -/
def Either.UnwrapLeftOrElse {T U : Type} (e : Either T U) (fn : Unit → T) : T :=
  if e.isLeft then e.left else fn UnitValue

/-- Swap returns a new Either with the left and right values swapped. -/
def Either.Swap {T U : Type} [Inhabited T] [Inhabited U] (e : Either T U) :
    Either U T :=
  if e.isLeft then Right e.left else Left e.right

end gofp

namespace reader

/-- Reader is a monad that models computations which read values from a shared
environment, a wrapper around a function from the environment to a value. -/
structure Reader (E A : Type) where
  g : E → A

/-- Run executes the Reader computation with the given environment and returns
the value. -/
def Reader.Run {E A : Type} (r : Reader E A) (env : E) : A :=
  r.g env

/-- New creates a Reader from a function. -/
def New {E A : Type} (f : E → A) : Reader E A :=
  { g := f }

/-- Pure lifts a value into a Reader computation that ignores the
environment. -/
def Pure {E A : Type} (a : A) : Reader E A :=
  New fun _ => a

/-- Ask returns a Reader computation that provides the environment itself. -/
def Ask {E : Type} : Reader E E :=
  New fun e => e

/-- Local creates a new Reader computation that runs the original reader
against the transformed environment. -/
def Local {E A : Type} (r : Reader E A) (f : E → E) : Reader E A :=
  New fun e => r.Run (f e)

/-- Map applies a function to transform the value type of a Reader. -/
def Map {E A B : Type} (r : Reader E A) (f : A → B) : Reader E B :=
  { g := fun e => f (r.g e) }

/-- Apply applies a Reader computation containing a function to a Reader
computation containing a value. -/
def Apply {E A B : Type} (r : Reader E A) (f : Reader E (A → B)) : Reader E B :=
  { g := fun e => f.g e (r.g e) }

/-- FlatMap composes two Reader computations by using the result of the first
to create the second; both computations share the same environment. -/
def FlatMap {E A B : Type} (r : Reader E A) (f : A → Reader E B) : Reader E B :=
  { g := fun e => (f (r.g e)).g e }

/-- Zip combines two Reader computations into one using a combining
function. -/
def Zip {E A B U : Type} (ra : Reader E A) (rb : Reader E B) (f : A → B → U) :
    Reader E U :=
  FlatMap ra fun a => Map rb fun b => f a b

end reader

namespace state

/-- State is a monad that models computations that depend on some global
state, a wrapper around a function from a state to a value and a new state. -/
structure State (S A : Type) where
  g : S → A × S

/-- Run executes the State computation with the given initial state and
returns both the value and the final state. -/
def State.Run {S A : Type} (s : State S A) (st : S) : A × S :=
  s.g st

/-- Pure lifts a value into a State computation that leaves the state
unchanged. -/
def Pure {S A : Type} (a : A) : State S A :=
  { g := fun s => (a, s) }

/-- Get returns a State computation that provides the current state as its
value without modifying the state. -/
def Get {S : Type} : State S S :=
  { g := fun st => (st, st) }

/-- Gets returns a State computation that applies a function to the current
state to extract a value, without modifying the state. -/
def Gets {S A : Type} (f : S → A) : State S A :=
  { g := fun s => (f s, s) }

/-- Put returns a State computation that replaces the current state with the
given state and returns Unit. -/
def Put {S : Type} (st : S) : State S gofp.Unit :=
  { g := fun _ => (gofp.UnitValue, st) }

/-- Modify returns a State computation that transforms the current state with
the provided function and returns Unit. -/
def Modify {S : Type} (f : S → S) : State S gofp.Unit :=
  { g := fun s => (gofp.UnitValue, f s) }

/-- Map applies a function to transform the value type of a State, preserving
the state transitions. -/
def Map {S A B : Type} (s : State S A) (f : A → B) : State S B :=
  { g := fun st =>
      match s.g st with
      | (a, newState) => (f a, newState) }

/-- Apply applies a State computation containing a function to a State
computation containing a value, threading the state left to right. -/
def Apply {S A B : Type} (s : State S A) (f : State S (A → B)) : State S B :=
  { g := fun st =>
      match s.g st with
      | (a, s1) =>
        match f.g s1 with
        | (fn, s2) => (fn a, s2) }

/-- FlatMap composes two State computations, threading the state produced by
the first into the second. -/
def FlatMap {S A B : Type} (s : State S A) (f : A → State S B) : State S B :=
  { g := fun st =>
      match s.g st with
      | (a, newState) => (f a).g newState }

/-- Zip combines two State computations into one using a combining function,
threading the state through both sequentially. -/
def Zip {S A B U : Type} (sa : State S A) (sb : State S B) (f : A → B → U) :
    State S U :=
  FlatMap sa fun a => Map sb fun b => f a b

/-- Sequence transforms a slice of State computations into a single State
computation returning a slice of values, folding with Zip from Pure of the
empty slice exactly as the Go loop does. -/
def Sequence {S A : Type} (states : List (State S A)) : State S (List A) :=
  states.foldl (fun values s => Zip values s fun vs a => vs ++ [a]) (Pure [])

/-- SequenceSpec is the specification-side description of Sequence: run every
computation in list order, threading the state, and collect the values in
that same order. It is written from the words of the specification and is
compared with the source-derived Sequence in the refinement theorem. -/
def SequenceSpec {S A : Type} : List (State S A) → S → List A × S
  | [], st => ([], st)
  | x :: xs, st =>
    match x.Run st with
    | (a, st1) =>
      match SequenceSpec xs st1 with
      | (as', st2) => (a :: as', st2)

/-- ChainFlatMap is the manual chaining described by the specification: the
first computation followed, via FlatMap that discards the value, by each of
the remaining computations in order. -/
def ChainFlatMap {S A : Type} (first : State S A) (rest : List (State S A)) :
    State S A :=
  rest.foldl (fun acc t => FlatMap acc fun _ => t) first

end state

namespace writer

/-- Monoid is the caller-supplied capability for combining outputs: an empty
value and a way to combine two values. -/
structure Monoid (A : Type) where
  Empty : A
  Append : A → A → A

/-- Writer is a monad that models computations that produce output, bundling a
thunk returning a value and an output with the Monoid used to combine
outputs. -/
structure Writer (W A : Type) where
  g : Unit → A × W
  monoid : Monoid W

/-- Run executes the Writer computation and returns both the value and the
accumulated output. -/
def Writer.Run {W A : Type} (w : Writer W A) : A × W :=
  w.g ()

/-- Pure lifts a value into a Writer computation with an empty output. -/
def Pure {W A : Type} (a : A) (m : Monoid W) : Writer W A :=
  { g := fun _ => (a, m.Empty), monoid := m }

/-- Tell creates a Writer computation that only produces output; the value is
the Go zero value of A. -/
def Tell {W A : Type} [Inhabited A] (w : W) (m : Monoid W) : Writer W A :=
  { g := fun _ => (default, w), monoid := m }

/-- TellWithValue creates a Writer computation producing both a given value
and output. -/
def TellWithValue {W A : Type} (a : A) (w : W) (m : Monoid W) : Writer W A :=
  { g := fun _ => (a, w), monoid := m }

/-- listen mirrors the pair struct produced by Listen. -/
structure listen (A W : Type) where
  Value : A
  Log : W

/-- Listen creates a Writer computation that includes its own output in the
value while leaving its own output unchanged. -/
def Listen {W A : Type} (w : Writer W A) : Writer W (listen A W) :=
  { g := fun _ =>
      match w.Run with
      | (a, log) => ({ Value := a, Log := log }, log)
    monoid := w.monoid }

/-- Map applies a function to transform the value type of a Writer, preserving
the output. -/
def Map {W A B : Type} (w : Writer W A) (f : A → B) : Writer W B :=
  { g := fun _ =>
      match w.g () with
      | (a, log) => (f a, log)
    monoid := w.monoid }

/-- Apply applies a Writer computation containing a function to a Writer
computation containing a value; the value-writer output is the left operand
of Append. -/
def Apply {W A B : Type} (w : Writer W A) (f : Writer W (A → B)) : Writer W B :=
  { g := fun _ =>
      match w.Run with
      | (a, logA) =>
        match f.Run with
        | (fn, logF) => (fn a, w.monoid.Append logA logF)
    monoid := w.monoid }

/-- FlatMap composes two Writer computations by using the result of the first
to create the second; the output of the first is the left operand of
Append. -/
def FlatMap {W A B : Type} (w : Writer W A) (f : A → Writer W B) : Writer W B :=
  { g := fun _ =>
      match w.g () with
      | (a, w1) =>
        match (f a).g () with
        | (b, w2) => (b, w.monoid.Append w1 w2)
    monoid := w.monoid }

/-- Zip combines two Writer computations into one using a combining
function. -/
def Zip {W A B U : Type} (wa : Writer W A) (wb : Writer W B) (f : A → B → U) :
    Writer W U :=
  FlatMap wa fun a => Map wb fun b => f a b

end writer

namespace gofp

/-- ResultInv is the invariant stated by the specification: a successful
Result carries no diagnostic, and a failed Result carries a non-nil error. -/
def ResultInv {T : Type} (r : Result T) : Prop :=
  (r.isErr = false → r.stack = "") ∧ (r.isErr = true → r.err.isNil = false)

end gofp

/-- C1: for the accumulating apply on Either, two Lefts are combined with the
function-side Left value as the first argument to combine and the value-side
Left value as the second; a single Left is returned unchanged; and two Rights
produce Right of the function applied to the value. -/
theorem C1_either_applymap_order :
    (∀ (T U V : Type) [Inhabited T] [Inhabited U] [Inhabited V]
        (e1 e2 : T) (c : T → T → T),
      gofp.EitherApplyMap (U := U) (V := V) (gofp.Left e1) (gofp.Left e2) c
        = gofp.Left (c e2 e1)) ∧
    (∀ (T U V : Type) [Inhabited T] [Inhabited U] [Inhabited V]
        (e1 : T) (fn : U → V) (c : T → T → T),
      gofp.EitherApplyMap (gofp.Left e1) (gofp.Right fn) c = gofp.Left e1) ∧
    (∀ (T U V : Type) [Inhabited T] [Inhabited U] [Inhabited V]
        (v : U) (e2 : T) (c : T → T → T),
      gofp.EitherApplyMap (V := V) (gofp.Right v) (gofp.Left e2) c
        = gofp.Left e2) ∧
    (∀ (T U V : Type) [Inhabited T] [Inhabited U] [Inhabited V]
        (v : U) (fn : U → V) (c : T → T → T),
      gofp.EitherApplyMap (gofp.Right v) (gofp.Right fn) c
        = gofp.Right (fn v)) := by
  refine ⟨?_, ?_, ?_, ?_⟩ <;> intros <;> rfl

/-- C6: Local runs the wrapped Reader against the transformed environment on
every Run, Local of Ask yields the transformed environment, and Ask run
separately still yields the environment unchanged. -/
theorem C6_reader_local_scoping :
    (∀ (E A : Type) (r : reader.Reader E A) (f : E → E) (e : E),
      (reader.Local r f).Run e = r.Run (f e)) ∧
    (∀ (E : Type) (f : E → E) (env : E),
      (reader.Local reader.Ask f).Run env = f env) ∧
    (∀ (E : Type) (env : E), (reader.Ask (E := E)).Run env = env) :=
  ⟨fun _ _ _ _ _ => rfl, fun _ _ _ => rfl, fun _ _ => rfl⟩

/-- C4: Writer FlatMap returns the second value together with the append of
the first output and the second output, first output on the left; Apply
appends the value-writer output to the left of the function-writer output. -/
theorem C4_writer_append_order :
    (∀ (W A B : Type) (w : writer.Writer W A) (f : A → writer.Writer W B)
        (a : A) (log1 : W) (b : B) (log2 : W),
      w.Run = (a, log1) → (f a).Run = (b, log2) →
      (writer.FlatMap w f).Run = (b, w.monoid.Append log1 log2)) ∧
    (∀ (W A B : Type) (w : writer.Writer W A) (wf : writer.Writer W (A → B))
        (a : A) (logA : W) (fn : A → B) (logF : W),
      w.Run = (a, logA) → wf.Run = (fn, logF) →
      (writer.Apply w wf).Run = (fn a, w.monoid.Append logA logF)) := by
  constructor
  · intro W A B w f a log1 b log2 h1 h2
    have h1g : w.g () = (a, log1) := h1
    have h2g : (f a).g () = (b, log2) := h2
    simp [writer.Writer.Run, writer.FlatMap, h1g, h2g]
  · intro W A B w wf a logA fn logF h1 h2
    have h1g : w.g () = (a, logA) := h1
    have h2g : wf.g () = (fn, logF) := h2
    simp [writer.Writer.Run, writer.Apply, h1g, h2g]

/-- C3: every error-propagating Result combinator carries the diagnostic of
the failed operand through unchanged together with its error; Wrap prefixes
the message onto the error description while preserving the diagnostic, and
is a no-op on a successful Result. -/
theorem C3_result_diagnostic_preservation :
    (∀ (T U : Type) [Inhabited U] (r : gofp.Result T) (fn : T → U),
      r.isErr = true →
      (gofp.ResultMap r fn).stack = r.stack ∧
      (gofp.ResultMap r fn).err = r.err) ∧
    (∀ (T U : Type) [Inhabited U] (r : gofp.Result T) (fn : T → gofp.Result U),
      r.isErr = true →
      (gofp.ResultFlatMap r fn).stack = r.stack ∧
      (gofp.ResultFlatMap r fn).err = r.err) ∧
    (∀ (T U : Type) [Inhabited U] (r : gofp.Result T)
        (fn : gofp.Result (T → U)),
      (r.isErr = true →
        (gofp.ResultApply r fn).stack = r.stack ∧
        (gofp.ResultApply r fn).err = r.err) ∧
      (r.isErr = false → fn.isErr = true →
        (gofp.ResultApply r fn).stack = fn.stack ∧
        (gofp.ResultApply r fn).err = fn.err)) ∧
    (∀ (T : Type) (r res : gofp.Result T), r.isErr = true → r.And res = r) ∧
    (∀ (T : Type) [Inhabited T] (r : gofp.Result T) (msg : String),
      (r.isErr = true →
        (r.Wrap msg).stack = r.stack ∧
        (r.Wrap msg).err = gofp.GoError.wrap msg r.err ∧
        (r.Wrap msg).err.Error = msg ++ ": " ++ r.err.Error ∧
        (r.Wrap msg).isErr = true) ∧
      (r.isErr = false → r.Wrap msg = r)) := by
  refine ⟨?_, ?_, ?_, ?_, ?_⟩
  · intro T U _ r fn h
    simp [gofp.ResultMap, h]
  · intro T U _ r fn h
    simp [gofp.ResultFlatMap, h]
  · intro T U _ r fn
    constructor
    · intro h
      simp [gofp.ResultApply, h]
    · intro h1 h2
      simp [gofp.ResultApply, h1, h2]
  · intro T r res h
    simp [gofp.Result.And, h]
  · intro T _ r msg
    constructor
    · intro h
      simp [gofp.Result.Wrap, h, gofp.GoError.Error]
    · intro h
      simp [gofp.Result.Wrap, h]

/-- C10: TryUnwrap on Option, Result and Either is a total extraction that
returns the contained success value paired with true, or the zero value
paired with false on the failure case; TryUnwrapLeft is the symmetric
extraction on the left side of Either. -/
theorem C10_tryunwrap_total :
    (∀ (T : Type) [Inhabited T] (v : T),
      (gofp.Some v).TryUnwrap = (v, true)) ∧
    (∀ (T : Type) [Inhabited T] (o : gofp.Option T),
      o.valid = false → o.TryUnwrap = (default, false)) ∧
    (∀ (T : Type) [Inhabited T] (v : T),
      (gofp.Ok v).TryUnwrap = (v, true)) ∧
    (∀ (T : Type) [Inhabited T] (r : gofp.Result T),
      r.isErr = true → r.TryUnwrap = (default, false)) ∧
    (∀ (T U : Type) [Inhabited T] [Inhabited U] (v : U),
      (gofp.Right (T := T) v).TryUnwrap = (v, true)) ∧
    (∀ (T U : Type) [Inhabited U] (e : gofp.Either T U),
      e.isLeft = true → e.TryUnwrap = (default, false)) ∧
    (∀ (T U : Type) [Inhabited T] [Inhabited U] (v : T),
      (gofp.Left (U := U) v).TryUnwrapLeft = (v, true)) ∧
    (∀ (T U : Type) [Inhabited T] (e : gofp.Either T U),
      e.isLeft = false → e.TryUnwrapLeft = (default, false)) := by
  refine ⟨?_, ?_, ?_, ?_, ?_, ?_, ?_, ?_⟩
  · intro T _ v
    rfl
  · intro T _ o h
    simp [gofp.Option.TryUnwrap, h]
  · intro T _ v
    rfl
  · intro T _ r h
    simp [gofp.Result.TryUnwrap, h]
  · intro T U _ _ v
    rfl
  · intro T U _ e h
    simp [gofp.Either.TryUnwrap, h]
  · intro T U _ _ v
    rfl
  · intro T U _ e h
    simp [gofp.Either.TryUnwrapLeft, h]

/-- C10 witness: the general statements evaluated at concrete inputs. -/
theorem C10_tryunwrap_total_witness :
    (gofp.Some (3 : Nat)).TryUnwrap = (3, true) ∧
    (gofp.None (T := Nat)).TryUnwrap = (0, false) ∧
    (gofp.Ok (4 : Nat)).TryUnwrap = (4, true) ∧
    (gofp.Err (T := Nat) "site" (gofp.GoError.mk "boom")).TryUnwrap
      = (0, false) ∧
    (gofp.Right (T := String) (5 : Nat)).TryUnwrap = (5, true) ∧
    (gofp.Left (U := Nat) "oops").TryUnwrap = (0, false) ∧
    (gofp.Left (U := Nat) "oops").TryUnwrapLeft = ("oops", true) ∧
    (gofp.Right (T := String) (5 : Nat)).TryUnwrapLeft = ("", false) :=
  ⟨C10_tryunwrap_total.1 Nat 3,
   C10_tryunwrap_total.2.1 Nat gofp.None rfl,
   C10_tryunwrap_total.2.2.1 Nat 4,
   C10_tryunwrap_total.2.2.2.1 Nat
     (gofp.Err "site" (gofp.GoError.mk "boom")) rfl,
   C10_tryunwrap_total.2.2.2.2.1 String Nat 5,
   C10_tryunwrap_total.2.2.2.2.2.1 String Nat (gofp.Left "oops") rfl,
   C10_tryunwrap_total.2.2.2.2.2.2.1 String Nat "oops",
   C10_tryunwrap_total.2.2.2.2.2.2.2 String Nat (gofp.Right 5) rfl⟩

/-- C9 counterexample: Unwrap on None panics with the text "unwrapping None",
not with the text "unwrap called on None" stated by the claim. -/
theorem C9_unwrap_counterexample :
    (gofp.None (T := Nat)).Unwrap = Except.error "unwrapping None" ∧
    (gofp.None (T := Nat)).Unwrap ≠ Except.error "unwrap called on None" := by
  constructor
  · rfl
  · intro h
    rw [show (gofp.None (T := Nat)).Unwrap = Except.error "unwrapping None"
      from rfl] at h
    simp at h

/-- C9 amended: Unwrap returns the contained value for every Some and panics
exactly when called on None, the panic text being "unwrapping None". -/
theorem C9_unwrap_amended :
    (∀ (T : Type) (v : T), (gofp.Some v).Unwrap = Except.ok v) ∧
    (∀ (T : Type) [Inhabited T],
      (gofp.None (T := T)).Unwrap = Except.error "unwrapping None") ∧
    (∀ (T : Type) (o : gofp.Option T),
      o.valid = false → o.Unwrap = Except.error "unwrapping None") ∧
    (∀ (T : Type) (o : gofp.Option T),
      (∃ msg, o.Unwrap = Except.error msg) ↔ o.valid = false) := by
  refine ⟨fun T v => rfl, fun T _ => rfl, ?_, ?_⟩
  · intro T o h
    simp [gofp.Option.Unwrap, h]
  · intro T o
    constructor
    · intro ⟨msg, hmsg⟩
      cases hval : o.valid
      · rfl
      · simp [gofp.Option.Unwrap, hval] at hmsg
    · intro h
      exact ⟨"unwrapping None", by simp [gofp.Option.Unwrap, h]⟩

/-- C4 witness: the append-order statements evaluated on a concrete list
monoid, where order is observable. -/
theorem C4_writer_append_order_witness :
    (writer.FlatMap
        (writer.TellWithValue (1 : Nat) ([10] : List Nat)
          (writer.Monoid.mk [] (· ++ ·)))
        (fun a => writer.TellWithValue (a + 1) [20]
          (writer.Monoid.mk [] (· ++ ·)))).Run = (2, [10, 20]) ∧
    (writer.Apply
        (writer.TellWithValue (1 : Nat) ([10] : List Nat)
          (writer.Monoid.mk [] (· ++ ·)))
        (writer.TellWithValue (fun a => a + 5) [20]
          (writer.Monoid.mk [] (· ++ ·)))).Run = (6, [10, 20]) :=
  ⟨C4_writer_append_order.1 (List Nat) Nat Nat _ _ 1 [10] 2 [20] rfl rfl,
   C4_writer_append_order.2 (List Nat) Nat Nat _ _ 1 [10]
     (fun a => a + 5) [20] rfl rfl⟩

/-- C3 witness: the diagnostic-preservation statements evaluated at a concrete
failed Result. -/
theorem C3_result_diagnostic_preservation_witness :
    ((gofp.ResultMap (gofp.Err (T := Nat) "site" (gofp.GoError.mk "boom"))
        (fun v => v + 1)).stack = "site" ∧
      (gofp.ResultMap (gofp.Err (T := Nat) "site" (gofp.GoError.mk "boom"))
        (fun v => v + 1)).err = gofp.GoError.mk "boom") ∧
    ((gofp.ResultFlatMap (gofp.Err (T := Nat) "site" (gofp.GoError.mk "boom"))
        gofp.Ok).stack = "site" ∧
      (gofp.ResultFlatMap (gofp.Err (T := Nat) "site" (gofp.GoError.mk "boom"))
        gofp.Ok).err = gofp.GoError.mk "boom") ∧
    ((gofp.ResultApply (gofp.Ok (1 : Nat))
        (gofp.Err (T := Nat → Nat) "fnsite" (gofp.GoError.mk "fnboom"))).stack
        = "fnsite" ∧
      (gofp.ResultApply (gofp.Ok (1 : Nat))
        (gofp.Err (T := Nat → Nat) "fnsite" (gofp.GoError.mk "fnboom"))).err
        = gofp.GoError.mk "fnboom") ∧
    ((gofp.Err (T := Nat) "site" (gofp.GoError.mk "boom")).And (gofp.Ok 2)
      = gofp.Err "site" (gofp.GoError.mk "boom")) ∧
    ((gofp.Err (T := Nat) "site" (gofp.GoError.mk "boom")).Wrap "ctx").stack
      = "site" ∧
    ((gofp.Err (T := Nat) "site" (gofp.GoError.mk "boom")).Wrap
      "ctx").err.Error = "ctx: boom" ∧
    (gofp.Ok (3 : Nat)).Wrap "ctx" = gofp.Ok 3 :=
  ⟨C3_result_diagnostic_preservation.1 Nat Nat
      (gofp.Err "site" (gofp.GoError.mk "boom")) (fun v => v + 1) rfl,
   C3_result_diagnostic_preservation.2.1 Nat Nat
      (gofp.Err "site" (gofp.GoError.mk "boom")) gofp.Ok rfl,
   (C3_result_diagnostic_preservation.2.2.1 Nat Nat (gofp.Ok 1)
      (gofp.Err "fnsite" (gofp.GoError.mk "fnboom"))).2 rfl rfl,
   C3_result_diagnostic_preservation.2.2.2.1 Nat
      (gofp.Err "site" (gofp.GoError.mk "boom")) (gofp.Ok 2) rfl,
   (C3_result_diagnostic_preservation.2.2.2.2 Nat
      (gofp.Err "site" (gofp.GoError.mk "boom")) "ctx").1 rfl |>.1,
   (C3_result_diagnostic_preservation.2.2.2.2 Nat
      (gofp.Err "site" (gofp.GoError.mk "boom")) "ctx").1 rfl |>.2.2.1,
   (C3_result_diagnostic_preservation.2.2.2.2 Nat (gofp.Ok 3) "ctx").2 rfl⟩

/-- C9 witness: the amended statements evaluated at concrete inputs. -/
theorem C9_unwrap_amended_witness :
    (gofp.Some (7 : Nat)).Unwrap = Except.ok 7 ∧
    (gofp.None (T := Nat)).Unwrap = Except.error "unwrapping None" ∧
    ((∃ msg, (gofp.None (T := Nat)).Unwrap = Except.error msg) ↔
      (gofp.None (T := Nat)).valid = false) :=
  ⟨C9_unwrap_amended.1 Nat 7,
   C9_unwrap_amended.2.2.1 Nat gofp.None rfl,
   C9_unwrap_amended.2.2.2 Nat gofp.None⟩

/-- Folding the OptionSequence step over a list starting from a None
accumulator yields None. -/
theorem optionSequence_foldl_none {T : Type} (l : List (gofp.Option T)) :
    l.foldl
      (fun values o =>
        gofp.OptionFlatMap values fun vs => gofp.OptionMap o fun v => vs ++ [v])
      gofp.None = gofp.None := by
  induction l with
  | nil => rfl
  | cons o t ih =>
    rw [List.foldl_cons]
    have hstep :
        gofp.OptionFlatMap (gofp.None (T := List T))
          (fun vs => gofp.OptionMap o fun v => vs ++ [v]) = gofp.None := rfl
    rw [hstep, ih]

/-- Folding the OptionSequence step from a Some accumulator appends the values
of the list elements when all are Some and collapses to None otherwise. -/
theorem optionSequence_foldl_some {T : Type} (l : List (gofp.Option T))
    (vs : List T) :
    l.foldl
      (fun values o =>
        gofp.OptionFlatMap values fun a => gofp.OptionMap o fun v => a ++ [v])
      (gofp.Some vs)
      = if l.all (fun o => o.valid) then
          gofp.Some (vs ++ l.map fun o => o.value)
        else gofp.None := by
  induction l generalizing vs with
  | nil => simp
  | cons o t ih =>
    rw [List.foldl_cons]
    cases ho : o.valid with
    | false =>
      have hstep :
          gofp.OptionFlatMap (gofp.Some vs)
            (fun a => gofp.OptionMap o fun v => a ++ [v]) = gofp.None := by
        simp [gofp.OptionFlatMap, gofp.Some, gofp.OptionMap, ho]
      rw [hstep, optionSequence_foldl_none]
      simp [ho]
    | true =>
      have hstep :
          gofp.OptionFlatMap (gofp.Some vs)
            (fun a => gofp.OptionMap o fun v => a ++ [v])
            = gofp.Some (vs ++ [o.value]) := by
        simp [gofp.OptionFlatMap, gofp.Some, gofp.OptionMap, ho]
      rw [hstep, ih]
      simp [ho]

/-- C7: OptionSequence returns Some of the values in order when every element
is Some, yields Some of the empty list on the empty slice, the concrete
three-element scenario evaluates as stated, and any None element anywhere
makes the whole result None. -/
theorem C7_option_sequence :
    (∀ (T : Type) (l : List (gofp.Option T)),
      l.all (fun o => o.valid) = true →
      gofp.OptionSequence l = gofp.Some (l.map fun o => o.value)) ∧
    (gofp.OptionSequence [gofp.Some (1 : Nat), gofp.Some 2, gofp.Some 3]
      = gofp.Some [1, 2, 3]) ∧
    (∀ (T : Type),
      gofp.OptionSequence ([] : List (gofp.Option T)) = gofp.Some []) ∧
    (∀ (T : Type) (l : List (gofp.Option T)) (o : gofp.Option T),
      o ∈ l → o.valid = false → gofp.OptionSequence l = gofp.None) := by
  have hmain : ∀ (T : Type) (l : List (gofp.Option T)),
      gofp.OptionSequence l
        = if l.all (fun o => o.valid) then
            gofp.Some (l.map fun o => o.value)
          else gofp.None := by
    intro T l
    have := optionSequence_foldl_some l []
    simpa [gofp.OptionSequence] using this
  refine ⟨?_, ?_, ?_, ?_⟩
  · intro T l hall
    rw [hmain, hall]
    simp
  · rfl
  · intro T
    rfl
  · intro T l o hmem hval
    rw [hmain]
    have hall : l.all (fun o => o.valid) = false := by
      cases h : l.all (fun o => o.valid) with
      | false => rfl
      | true =>
        have := List.all_eq_true.mp h o hmem
        rw [hval] at this
        cases this
    rw [hall]
    simp

/-- C7 witness: the quantified statements evaluated at concrete lists,
including the middle-element None scenario. -/
theorem C7_option_sequence_witness :
    gofp.OptionSequence [gofp.Some (1 : Nat), gofp.Some 2]
      = gofp.Some [1, 2] ∧
    gofp.OptionSequence [gofp.Some (1 : Nat), gofp.None, gofp.Some 3]
      = gofp.None :=
  ⟨C7_option_sequence.1 Nat [gofp.Some 1, gofp.Some 2] rfl,
   C7_option_sequence.2.2.2 Nat [gofp.Some 1, gofp.None, gofp.Some 3]
     gofp.None
     (List.mem_cons_of_mem _ (List.mem_cons_self _ _)) rfl⟩

/-- Running a State Zip runs the first computation, threads its state into the
second, and pairs the combined value with the final state. -/
theorem state_run_zip {S A B U : Type} (sa : state.State S A)
    (sb : state.State S B) (f : A → B → U) (st : S) :
    (state.Zip sa sb f).Run st
      = (f (sa.Run st).1 ((sb.Run (sa.Run st).2).1),
         (sb.Run (sa.Run st).2).2) := rfl

/-- Unfolding SequenceSpec on a cons cell into projections. -/
theorem state_sequenceSpec_cons {S A : Type} (x : state.State S A)
    (t : List (state.State S A)) (st : S) :
    state.SequenceSpec (x :: t) st
      = ((x.Run st).1 :: (state.SequenceSpec t ((x.Run st).2)).1,
         (state.SequenceSpec t ((x.Run st).2)).2) := rfl

/-- Folding the Sequence step over a list from an arbitrary accumulator
prepends the accumulator values to the specification run of the list, started
in the state the accumulator leaves behind. -/
theorem state_sequence_foldl {S A : Type} (l : List (state.State S A))
    (acc : state.State S (List A)) (st : S) :
    (l.foldl (fun values s => state.Zip values s fun vs a => vs ++ [a])
      acc).Run st
      = ((acc.Run st).1 ++ (state.SequenceSpec l ((acc.Run st).2)).1,
         (state.SequenceSpec l ((acc.Run st).2)).2) := by
  induction l generalizing acc st with
  | nil => simp [state.SequenceSpec]
  | cons x t ih =>
    rw [List.foldl_cons, ih, state_sequenceSpec_cons]
    simp [state_run_zip, List.append_assoc]

/-- The final state of the manual FlatMap chain equals the final state of the
specification run of the chained computations, started after the head. -/
theorem state_chain_foldl {S A : Type} (l : List (state.State S A))
    (acc : state.State S A) (st : S) :
    ((state.ChainFlatMap acc l).Run st).2
      = (state.SequenceSpec l ((acc.Run st).2)).2 := by
  induction l generalizing acc st with
  | nil => rfl
  | cons x t ih =>
    rw [state.ChainFlatMap, List.foldl_cons]
    have hstep : (state.FlatMap acc fun _ => x).Run st = x.Run ((acc.Run st).2) :=
      rfl
    rw [show (List.foldl (fun acc t => state.FlatMap acc fun _ => t) 
        (state.FlatMap acc fun _ => x) t)
        = state.ChainFlatMap (state.FlatMap acc fun _ => x) t from rfl]
    rw [ih, hstep, state_sequenceSpec_cons]

/-- C5: Sequence runs the listed State computations in list order threading
the state, returning the values in that order, with final state equal to that
of the manual FlatMap chain; the empty list leaves the state unchanged with an
empty value list. -/
theorem C5_state_sequence_refinement :
    (∀ (S A : Type) (l : List (state.State S A)) (s0 : S),
      (state.Sequence l).Run s0 = state.SequenceSpec l s0) ∧
    (∀ (S A : Type) (s1 : state.State S A) (rest : List (state.State S A))
        (s0 : S),
      ((state.ChainFlatMap s1 rest).Run s0).2
        = ((state.Sequence (s1 :: rest)).Run s0).2) ∧
    (∀ (S A : Type) (s0 : S),
      (state.Sequence ([] : List (state.State S A))).Run s0 = ([], s0)) := by
  have hseq : ∀ (S A : Type) (l : List (state.State S A)) (s0 : S),
      (state.Sequence l).Run s0 = state.SequenceSpec l s0 := by
    intro S A l s0
    rw [state.Sequence, state_sequence_foldl]
    simp [state.Pure, state.State.Run]
  refine ⟨hseq, ?_, ?_⟩
  · intro S A s1 rest s0
    rw [hseq, state_chain_foldl, state_sequenceSpec_cons]
  · intro S A s0
    rfl

/-- C2 counterexample: Err applied to a nil error produces a failed Result
whose error is nil, so a failed Result does not always carry a non-empty
error. -/
theorem C2_err_nil_counterexample :
    (gofp.Err (T := Nat) "trace" gofp.GoError.nil).isErr = true ∧
    (gofp.Err (T := Nat) "trace" gofp.GoError.nil).err.isNil = true :=
  ⟨rfl, rfl⟩

/-- C2 amended: every Result built by Ok, by Err from a non-nil error, or by
FromReturn satisfies the invariant that a successful Result carries no
diagnostic and a failed Result carries a non-nil error, and every combinator
preserves the invariant; Err applied to a nil error violates it. -/
theorem C2_result_invariant_amended :
    (∀ (T : Type) (v : T), gofp.ResultInv (gofp.Ok v)) ∧
    (∀ (T : Type) [Inhabited T] (st : String) (e : gofp.GoError),
      e.isNil = false → gofp.ResultInv (gofp.Err (T := T) st e)) ∧
    (∀ (T : Type) (st : String) (v : T) (e : gofp.GoError),
      gofp.ResultInv (gofp.FromReturn st v e)) ∧
    (∀ (T U : Type) [Inhabited U] (r : gofp.Result T) (fn : T → U),
      gofp.ResultInv r → gofp.ResultInv (gofp.ResultMap r fn)) ∧
    (∀ (T U : Type) [Inhabited U] (r : gofp.Result T)
        (fn : gofp.Result (T → U)),
      gofp.ResultInv r → gofp.ResultInv fn →
      gofp.ResultInv (gofp.ResultApply r fn)) ∧
    (∀ (T U : Type) [Inhabited U] (r : gofp.Result T)
        (fn : T → gofp.Result U),
      gofp.ResultInv r → (∀ x, gofp.ResultInv (fn x)) →
      gofp.ResultInv (gofp.ResultFlatMap r fn)) ∧
    (∀ (T : Type) (r res : gofp.Result T),
      gofp.ResultInv r → gofp.ResultInv res → gofp.ResultInv (r.And res)) ∧
    (∀ (T : Type) (r : gofp.Result T) (fn : T → gofp.Result T),
      gofp.ResultInv r → (∀ x, gofp.ResultInv (fn x)) →
      gofp.ResultInv (r.AndThen fn)) ∧
    (∀ (T : Type) (r res : gofp.Result T),
      gofp.ResultInv r → gofp.ResultInv res → gofp.ResultInv (r.Or res)) ∧
    (∀ (T : Type) (r : gofp.Result T) (fn : gofp.GoError → gofp.Result T),
      gofp.ResultInv r → (∀ e, gofp.ResultInv (fn e)) →
      gofp.ResultInv (r.OrElse fn)) ∧
    (∀ (T : Type) [Inhabited T] (r : gofp.Result T) (msg : String),
      gofp.ResultInv r → gofp.ResultInv (r.Wrap msg)) ∧
    (∀ (T : Type) (r : gofp.Result T) (fn : gofp.GoError → T),
      gofp.ResultInv r → gofp.ResultInv (r.Recover fn)) ∧
    (∀ (T : Type) (r : gofp.Result T) (fn : gofp.GoError → gofp.Result T),
      gofp.ResultInv r → (∀ e, gofp.ResultInv (fn e)) →
      gofp.ResultInv (r.RecoverWith fn)) ∧
    (∀ (T : Type) [Inhabited T] (r : gofp.Result T) (st : String)
        (e : gofp.GoError) (pred : T → Bool),
      gofp.ResultInv r → e.isNil = false →
      gofp.ResultInv (r.Ensure st e pred)) ∧
    (∀ (T : Type) [Inhabited T] (r : gofp.Result T) (st : String)
        (pred : T → Bool) (errFn : T → gofp.GoError),
      gofp.ResultInv r → (∀ v, (errFn v).isNil = false) →
      gofp.ResultInv (r.EnsureWith st pred errFn)) := by
  refine ⟨?_, ?_, ?_, ?_, ?_, ?_, ?_, ?_, ?_, ?_, ?_, ?_, ?_, ?_, ?_⟩
  · intro T v
    exact ⟨fun _ => rfl, fun h => by cases h⟩
  · intro T _ st e he
    exact ⟨(fun h => by cases h), fun _ => he⟩
  · intro T st v e
    cases he : e.isNil
    · exact ⟨(fun h => by simp [gofp.FromReturn, he] at h),
        fun _ => by simp [gofp.FromReturn, he]⟩
    · exact ⟨(fun _ => by simp [gofp.FromReturn, he]),
        fun h => by simp [gofp.FromReturn, he] at h⟩
  · intro T U _ r fn h
    cases hr : r.isErr
    · simp [gofp.ResultMap, hr, gofp.ResultInv, gofp.Ok]
    · simp [gofp.ResultMap, hr, gofp.ResultInv]
      exact h.2 hr
  · intro T U _ r fn h hfn
    cases hr : r.isErr
    · cases hf : fn.isErr
      · simp [gofp.ResultApply, hr, hf, gofp.ResultInv, gofp.Ok]
      · simp [gofp.ResultApply, hr, hf, gofp.ResultInv]
        exact hfn.2 hf
    · simp [gofp.ResultApply, hr, gofp.ResultInv]
      exact h.2 hr
  · intro T U _ r fn h hfn
    cases hr : r.isErr
    · simpa [gofp.ResultFlatMap, hr] using hfn r.value
    · simp [gofp.ResultFlatMap, hr, gofp.ResultInv]
      exact h.2 hr
  · intro T r res h hres
    cases hr : r.isErr
    · simpa [gofp.Result.And, hr] using hres
    · simpa [gofp.Result.And, hr] using h
  · intro T r fn h hfn
    cases hr : r.isErr
    · simpa [gofp.Result.AndThen, hr] using hfn r.value
    · simpa [gofp.Result.AndThen, hr] using h
  · intro T r res h hres
    cases hr : r.isErr
    · simpa [gofp.Result.Or, hr] using h
    · simpa [gofp.Result.Or, hr] using hres
  · intro T r fn h hfn
    cases hr : r.isErr
    · simpa [gofp.Result.OrElse, hr] using h
    · simpa [gofp.Result.OrElse, hr] using hfn r.err
  · intro T _ r msg h
    cases hr : r.isErr
    · simpa [gofp.Result.Wrap, hr] using h
    · exact ⟨(fun hfalse => by simp [gofp.Result.Wrap, hr] at hfalse ⊢),
        fun _ => by simp [gofp.Result.Wrap, hr, gofp.GoError.isNil]⟩
  · intro T r fn h
    cases hr : r.isErr
    · simpa [gofp.Result.Recover, hr] using h
    · simp [gofp.Result.Recover, hr, gofp.ResultInv, gofp.Ok]
  · intro T r fn h hfn
    cases hr : r.isErr
    · simpa [gofp.Result.RecoverWith, hr] using h
    · simpa [gofp.Result.RecoverWith, hr] using hfn r.err
  · intro T _ r st e pred h he
    cases hr : r.isErr
    · cases hp : pred r.value
      · simp [gofp.Result.Ensure, hr, hp, gofp.Err, gofp.ResultInv]
        exact he
      · simpa [gofp.Result.Ensure, hr, hp] using h
    · simpa [gofp.Result.Ensure, hr] using h
  · intro T _ r st pred errFn h hfn
    cases hr : r.isErr
    · cases hp : pred r.value
      · simp [gofp.Result.EnsureWith, hr, hp, gofp.Err, gofp.ResultInv]
        exact hfn r.value
      · simpa [gofp.Result.EnsureWith, hr, hp] using h
    · simpa [gofp.Result.EnsureWith, hr] using h

/-- C2 witness: the amended invariant statements evaluated at concrete
Results. -/
theorem C2_result_invariant_witness :
    gofp.ResultInv (gofp.Ok (5 : Nat)) ∧
    gofp.ResultInv (gofp.Err (T := Nat) "site" (gofp.GoError.mk "boom")) ∧
    gofp.ResultInv (gofp.FromReturn "site" (5 : Nat) gofp.GoError.nil) ∧
    gofp.ResultInv
      (gofp.ResultMap (gofp.Err (T := Nat) "site" (gofp.GoError.mk "boom"))
        (fun v => v + 1)) ∧
    gofp.ResultInv
      ((gofp.Err (T := Nat) "site" (gofp.GoError.mk "boom")).Wrap "ctx") ∧
    gofp.ResultInv
      ((gofp.Ok (5 : Nat)).Ensure "site2" (gofp.GoError.mk "small")
        (fun v => decide (10 < v))) :=
  ⟨C2_result_invariant_amended.1 Nat 5,
   C2_result_invariant_amended.2.1 Nat "site" (gofp.GoError.mk "boom") rfl,
   C2_result_invariant_amended.2.2.1 Nat "site" 5 gofp.GoError.nil,
   C2_result_invariant_amended.2.2.2.1 Nat Nat
     (gofp.Err "site" (gofp.GoError.mk "boom")) (fun v => v + 1)
     (C2_result_invariant_amended.2.1 Nat "site" (gofp.GoError.mk "boom") rfl),
   C2_result_invariant_amended.2.2.2.2.2.2.2.2.2.2.1 Nat
     (gofp.Err "site" (gofp.GoError.mk "boom")) "ctx"
     (C2_result_invariant_amended.2.1 Nat "site" (gofp.GoError.mk "boom") rfl),
   C2_result_invariant_amended.2.2.2.2.2.2.2.2.2.2.2.2.2.1 Nat
     (gofp.Ok 5) "site2" (gofp.GoError.mk "small") (fun v => decide (10 < v))
     (C2_result_invariant_amended.1 Nat 5) rfl⟩

/-- C8 counterexample: right identity fails for Result at a reachable value.
FromReturn keeps the supplied value alongside a non-nil error, while FlatMap
rebuilds the error case with the zero value, so FlatMap with Ok changes the
container, observably through ToReturn. -/
theorem C8_monad_laws_counterexample :
    gofp.ResultFlatMap
        (gofp.FromReturn "site" (5 : Nat) (gofp.GoError.mk "boom")) gofp.Ok
      ≠ gofp.FromReturn "site" (5 : Nat) (gofp.GoError.mk "boom") ∧
    (gofp.ResultFlatMap
        (gofp.FromReturn "site" (5 : Nat) (gofp.GoError.mk "boom"))
        gofp.Ok).ToReturn
      ≠ (gofp.FromReturn "site" (5 : Nat) (gofp.GoError.mk "boom")).ToReturn := by
  constructor
  · decide
  · decide

/-- C8 amended: the monad laws hold for all six types, with right identity
for the data containers restricted to values whose unused fields hold the Go
zero values, which every public construction except FromReturn guarantees; a
FromReturn-built failed Result keeping a non-zero value violates Result right
identity. Reader, State and Writer laws are stated on Run results, the Writer
ones under the monoid laws and shared-monoid preconditions the specification
assumes. -/
theorem C8_monad_laws_amended :
    ((∀ (T U : Type) [Inhabited U] (a : T) (f : T → gofp.Option U),
      gofp.OptionFlatMap (gofp.Some a) f = f a) ∧
     (∀ (T : Type) [Inhabited T] (c : gofp.Option T),
      (c.valid = false → c.value = default) →
      gofp.OptionFlatMap c gofp.Some = c) ∧
     (∀ (T U V : Type) [Inhabited U] [Inhabited V] (c : gofp.Option T)
        (f : T → gofp.Option U) (g : U → gofp.Option V),
      gofp.OptionFlatMap (gofp.OptionFlatMap c f) g
        = gofp.OptionFlatMap c fun x => gofp.OptionFlatMap (f x) g)) ∧
    ((∀ (T U : Type) [Inhabited U] (a : T) (f : T → gofp.Result U),
      gofp.ResultFlatMap (gofp.Ok a) f = f a) ∧
     (∀ (T : Type) [Inhabited T] (c : gofp.Result T),
      (c.isErr = false → c.err = gofp.GoError.nil ∧ c.stack = "") →
      (c.isErr = true → c.value = default) →
      gofp.ResultFlatMap c gofp.Ok = c) ∧
     (∀ (T U V : Type) [Inhabited U] [Inhabited V] (c : gofp.Result T)
        (f : T → gofp.Result U) (g : U → gofp.Result V),
      gofp.ResultFlatMap (gofp.ResultFlatMap c f) g
        = gofp.ResultFlatMap c fun x => gofp.ResultFlatMap (f x) g)) ∧
    ((∀ (L U V : Type) [Inhabited L] [Inhabited V] (a : U)
        (f : U → gofp.Either L V),
      gofp.EitherFlatMap (gofp.Right a) f = f a) ∧
     (∀ (L U : Type) [Inhabited L] [Inhabited U] (c : gofp.Either L U),
      (c.isLeft = true → c.right = default) →
      (c.isLeft = false → c.left = default) →
      gofp.EitherFlatMap c gofp.Right = c) ∧
     (∀ (L U V X : Type) [Inhabited V] [Inhabited X] (c : gofp.Either L U)
        (f : U → gofp.Either L V) (g : V → gofp.Either L X),
      gofp.EitherFlatMap (gofp.EitherFlatMap c f) g
        = gofp.EitherFlatMap c fun x => gofp.EitherFlatMap (f x) g)) ∧
    ((∀ (E A B : Type) (a : A) (f : A → reader.Reader E B) (e : E),
      (reader.FlatMap (reader.Pure a) f).Run e = (f a).Run e) ∧
     (∀ (E A : Type) (c : reader.Reader E A) (e : E),
      (reader.FlatMap c reader.Pure).Run e = c.Run e) ∧
     (∀ (E A B X : Type) (c : reader.Reader E A) (f : A → reader.Reader E B)
        (g : B → reader.Reader E X) (e : E),
      (reader.FlatMap (reader.FlatMap c f) g).Run e
        = (reader.FlatMap c fun x => reader.FlatMap (f x) g).Run e)) ∧
    ((∀ (S A B : Type) (a : A) (f : A → state.State S B) (st : S),
      (state.FlatMap (state.Pure a) f).Run st = (f a).Run st) ∧
     (∀ (S A : Type) (c : state.State S A) (st : S),
      (state.FlatMap c state.Pure).Run st = c.Run st) ∧
     (∀ (S A B X : Type) (c : state.State S A) (f : A → state.State S B)
        (g : B → state.State S X) (st : S),
      (state.FlatMap (state.FlatMap c f) g).Run st
        = (state.FlatMap c fun x => state.FlatMap (f x) g).Run st)) ∧
    ((∀ (W A B : Type) (a : A) (m : writer.Monoid W)
        (f : A → writer.Writer W B),
      (∀ w, m.Append m.Empty w = w) →
      (writer.FlatMap (writer.Pure a m) f).Run = (f a).Run) ∧
     (∀ (W A : Type) (c : writer.Writer W A),
      (∀ w, c.monoid.Append w c.monoid.Empty = w) →
      (writer.FlatMap c fun a => writer.Pure a c.monoid).Run = c.Run) ∧
     (∀ (W A B X : Type) (c : writer.Writer W A)
        (f : A → writer.Writer W B) (g : B → writer.Writer W X),
      (∀ x y z, c.monoid.Append (c.monoid.Append x y) z
        = c.monoid.Append x (c.monoid.Append y z)) →
      (∀ a, (f a).monoid = c.monoid) →
      (writer.FlatMap (writer.FlatMap c f) g).Run
        = (writer.FlatMap c fun x => writer.FlatMap (f x) g).Run)) := by
  refine ⟨⟨?_, ?_, ?_⟩, ⟨?_, ?_, ?_⟩, ⟨?_, ?_, ?_⟩, ⟨?_, ?_, ?_⟩,
    ⟨?_, ?_, ?_⟩, ⟨?_, ?_, ?_⟩⟩
  · intro T U _ a f
    rfl
  · intro T _ c h
    rcases c with ⟨v, valid⟩
    cases valid
    · have hv : v = default := h rfl
      subst hv
      rfl
    · rfl
  · intro T U V _ _ c f g
    rcases c with ⟨v, valid⟩
    cases valid <;> rfl
  · intro T U _ a f
    rfl
  · intro T _ c h1 h2
    rcases c with ⟨v, err, isErr, stack⟩
    cases isErr
    · obtain ⟨he, hs⟩ := h1 rfl
      subst he
      subst hs
      rfl
    · have hv : v = default := h2 rfl
      subst hv
      rfl
  · intro T U V _ _ c f g
    rcases c with ⟨v, err, isErr, stack⟩
    cases isErr <;> rfl
  · intro L U V _ _ a f
    rfl
  · intro L U _ _ c h1 h2
    rcases c with ⟨l, r, isLeft⟩
    cases isLeft
    · have hl : l = default := h2 rfl
      subst hl
      rfl
    · have hr : r = default := h1 rfl
      subst hr
      rfl
  · intro L U V X _ _ c f g
    rcases c with ⟨l, r, isLeft⟩
    cases isLeft <;> rfl
  · intro E A B a f e
    rfl
  · intro E A c e
    rfl
  · intro E A B X c f g e
    rfl
  · intro S A B a f st
    rfl
  · intro S A c st
    rfl
  · intro S A B X c f g st
    rfl
  · intro W A B a m f hl
    have hred : (writer.FlatMap (writer.Pure a m) f).Run
        = (((f a).g ()).1, m.Append m.Empty ((f a).g ()).2) := rfl
    rw [hred, hl]
    exact rfl
  · intro W A c hr
    have hred : (writer.FlatMap c fun a => writer.Pure a c.monoid).Run
        = ((c.g ()).1, c.monoid.Append ((c.g ()).2) c.monoid.Empty) := rfl
    rw [hred, hr]
    exact rfl
  · intro W A B X c f g hassoc hmon
    have hredL : (writer.FlatMap (writer.FlatMap c f) g).Run
        = (((g ((f ((c.g ()).1)).g ()).1).g ()).1,
           c.monoid.Append
             (c.monoid.Append ((c.g ()).2) ((f ((c.g ()).1)).g ()).2)
             ((g ((f ((c.g ()).1)).g ()).1).g ()).2) := rfl
    have hredR : (writer.FlatMap c fun x => writer.FlatMap (f x) g).Run
        = (((g ((f ((c.g ()).1)).g ()).1).g ()).1,
           c.monoid.Append ((c.g ()).2)
             ((f ((c.g ()).1)).monoid.Append
               ((f ((c.g ()).1)).g ()).2
               ((g ((f ((c.g ()).1)).g ()).1).g ()).2)) := rfl
    rw [hredL, hredR, hmon, hassoc]

/-- C8 witness: the hypothesis-bearing amended law statements evaluated at
concrete containers, monoids and functions. -/
theorem C8_monad_laws_witness :
    gofp.OptionFlatMap (gofp.None (T := Nat)) gofp.Some = gofp.None ∧
    gofp.ResultFlatMap (gofp.Err (T := Nat) "site" (gofp.GoError.mk "boom"))
      gofp.Ok = gofp.Err "site" (gofp.GoError.mk "boom") ∧
    gofp.EitherFlatMap (gofp.Left (U := Nat) "oops") gofp.Right
      = gofp.Left "oops" ∧
    (writer.FlatMap (writer.Pure (1 : Nat) (writer.Monoid.mk 0 Nat.add))
        (fun a => writer.TellWithValue (a + 1) 5
          (writer.Monoid.mk 0 Nat.add))).Run
      = (writer.TellWithValue (2 : Nat) 5 (writer.Monoid.mk 0 Nat.add)).Run ∧
    (writer.FlatMap
        (writer.TellWithValue (2 : Nat) 3 (writer.Monoid.mk 0 Nat.add))
        (fun a => writer.Pure a
          (writer.TellWithValue (2 : Nat) 3
            (writer.Monoid.mk 0 Nat.add)).monoid)).Run
      = (writer.TellWithValue (2 : Nat) 3 (writer.Monoid.mk 0 Nat.add)).Run ∧
    (writer.FlatMap
        (writer.FlatMap
          (writer.TellWithValue (2 : Nat) 3 (writer.Monoid.mk 0 Nat.add))
          (fun a => writer.TellWithValue (a + 1) 4
            (writer.Monoid.mk 0 Nat.add)))
        (fun b => writer.TellWithValue (b * 2) 5
          (writer.Monoid.mk 0 Nat.add))).Run
      = (writer.FlatMap
          (writer.TellWithValue (2 : Nat) 3 (writer.Monoid.mk 0 Nat.add))
          (fun x => writer.FlatMap
            (writer.TellWithValue (x + 1) 4 (writer.Monoid.mk 0 Nat.add))
            (fun b => writer.TellWithValue (b * 2) 5
              (writer.Monoid.mk 0 Nat.add)))).Run :=
  ⟨C8_monad_laws_amended.1.2.1 Nat gofp.None (fun _ => rfl),
   C8_monad_laws_amended.2.1.2.1 Nat
     (gofp.Err "site" (gofp.GoError.mk "boom")) (by decide) (fun _ => rfl),
   C8_monad_laws_amended.2.2.1.2.1 String Nat (gofp.Left "oops")
     (fun _ => rfl) (by decide),
   C8_monad_laws_amended.2.2.2.2.2.1 Nat Nat Nat 1
     (writer.Monoid.mk 0 Nat.add)
     (fun a => writer.TellWithValue (a + 1) 5 (writer.Monoid.mk 0 Nat.add))
     (fun w => Nat.zero_add w),
   C8_monad_laws_amended.2.2.2.2.2.2.1 Nat Nat
     (writer.TellWithValue 2 3 (writer.Monoid.mk 0 Nat.add))
     (fun w => Nat.add_zero w),
   C8_monad_laws_amended.2.2.2.2.2.2.2 Nat Nat Nat Nat
     (writer.TellWithValue 2 3 (writer.Monoid.mk 0 Nat.add))
     (fun a => writer.TellWithValue (a + 1) 4 (writer.Monoid.mk 0 Nat.add))
     (fun b => writer.TellWithValue (b * 2) 5 (writer.Monoid.mk 0 Nat.add))
     (fun x y z => Nat.add_assoc x y z) (fun _ => rfl)⟩
